import Mathlib

/-!
Shallow embedding of ETL_PubChem.py, a three-stage extract-transform-load
pipeline (fetch compound data from PubChem, compute RDKit descriptors,
persist to MongoDB), together with theorems settling the frozen claims
about it.

Python exceptions are modelled as an explicit error type returned through
Except; side effects (the outbound HTTP request, MongoDB client lifecycle
events) are modelled as explicit event traces returned alongside the
result.  External collaborators (the HTTP client, the RDKit library, the
MongoDB driver) are modelled as oracle parameters, since their code is not
part of this repository.
-/

/-- Python runtime values relevant to the input validation in fetch_data:
the argument may be a string or a non-string value such as None or an
integer.  Only the features the code inspects (truthiness, being a str,
and the result of str-formatting) are modelled. -/
inductive PyVal where
  | str (s : String)
  | pyNone
  | int (n : Int)
deriving DecidableEq

/-- Python truthiness of the modelled values: empty string, None and 0 are
falsy. -/
def PyVal.truthy : PyVal → Bool
  | .str s => s ≠ ""
  | .pyNone => false
  | .int n => n ≠ 0

/-- Python isinstance(v, str) for the modelled values. -/
def PyVal.isStr : PyVal → Bool
  | .str _ => true
  | _ => false

/-- Python str(v) as used by the f-string in the invalid-name error
message. -/
def PyVal.pyStr : PyVal → String
  | .str s => s
  | .pyNone => "None"
  | .int n => toString n

/-- Python exceptions raised or propagated by the script, keyed by their
class.  ValueError is raised by the script itself (with a message);
TypeError, NameError and KeyError arise from runtime slips; the last two
classes model exceptions from the requests and pymongo libraries.
ConnectionFailure is a subclass of PyMongoError in pymongo, so a single
constructor covers both for the except clauses in the script. -/
inductive PyExn where
  | valueError (msg : String)
  | typeError (msg : String)
  | nameError (msg : String)
  | keyError (msg : String)
  | requestException (msg : String)
  | pyMongoError (msg : String)
deriving DecidableEq

/-- The Python exception class of an exception, as a string. -/
def PyExn.kind : PyExn → String
  | .valueError _ => "ValueError"
  | .typeError _ => "TypeError"
  | .nameError _ => "NameError"
  | .keyError _ => "KeyError"
  | .requestException _ => "RequestException"
  | .pyMongoError _ => "PyMongoError"

/-- The urn object of a property entry in the PubChem JSON response; the
label and name keys may each be absent. -/
structure PCUrn where
  label : Option String
  name : Option String
deriving DecidableEq

/-- One entry of a compound's props list in the PubChem JSON response:
an optional urn object and the value.sval string, which is absent when
either the value object or its sval key is missing. -/
structure PCProp where
  urn : Option PCUrn
  value_sval : Option String
deriving DecidableEq

/-- One entry of the PC_Compounds list; props is the compound.get("props")
lookup, absent when the compound has no props key (Python None). -/
structure PCCompound where
  props : Option (List PCProp)
deriving DecidableEq

/-- A parsed HTTP response from the compound service: the status code and
the decoded JSON body's PC_Compounds list (absent when the key is missing
or null). -/
structure HttpResponse where
  status_code : Nat
  pc_compounds : Option (List PCCompound)
deriving DecidableEq

/-- The record returned by fetch_data on success:
the dict with keys name and smiles. -/
structure CompoundRecord where
  name : String
  smiles : String
deriving DecidableEq

/-- The default base_url argument of fetch_data. -/
def PUBCHEM_BASE_URL : String :=
  "https://pubchem.ncbi.nlm.nih.gov/rest/pug/compound/name"

/-- The URL built by fetch_data from the base url and the compound name. -/
def request_url (base_url compound_name : String) : String :=
  base_url ++ "/" ++ compound_name ++ "/JSON"

/-- The match condition of the extraction loop in fetch_data:
p.get("urn", \x7b\x7d).get("label") == "SMILES" and
p["urn"].get("name") == "Connectivity".  When the label matches, the urn
key is necessarily present, so the unguarded p["urn"] lookup of the second
conjunct cannot fail. -/
def propMatches (p : PCProp) : Bool :=
  (p.urn.bind PCUrn.label == some "SMILES") &&
    (p.urn.bind PCUrn.name == some "Connectivity")

/-- The first property of the props list satisfying the match condition,
if any: the property at which the extraction loop breaks. -/
def firstMatching (l : List PCProp) : Option PCProp :=
  l.find? propMatches

/-- The extraction loop of fetch_data: starting from smiles = None, scan
the props list; at the first matching property read p["value"]["sval"]
(a KeyError when absent) and break.  Returns the final value of the
smiles variable, none when no property matched. -/
def findSmilesLoop : List PCProp → Except PyExn (Option String)
  | [] => .ok none
  | p :: rest =>
    if propMatches p then
      match p.value_sval with
      | some s => .ok (some s)
      | none => .error (.keyError "sval")
    else findSmilesLoop rest

/-- The part of fetch_data after requests.get returned a response:
the status check (ValueError "Failed: ..." unless 200), the PC_Compounds
presence and non-emptiness check (ValueError "No compound data found"),
then SMILES extraction from the first compound.  When the first compound
has no props key, props is None and the for loop raises a TypeError.
After the loop, a falsy smiles variable (None, or the empty string read
from a matching property) raises ValueError "No SMILES found". -/
def fetch_body (compound_name : String) (response : HttpResponse) :
    Except PyExn CompoundRecord :=
  if response.status_code ≠ 200 then
    .error (.valueError ("Failed: " ++ toString response.status_code))
  else
    match response.pc_compounds with
    | none =>
      .error (.valueError ("No compound data found for: " ++ compound_name))
    | some [] =>
      .error (.valueError ("No compound data found for: " ++ compound_name))
    | some (compound :: _) =>
      match compound.props with
      | none => .error (.typeError "NoneType object is not iterable")
      | some props =>
        match findSmilesLoop props with
        | .error e => .error e
        | .ok none =>
          .error (.valueError ("No SMILES found for: " ++ compound_name))
        | .ok (some smiles) =>
          if smiles = "" then
            .error (.valueError ("No SMILES found for: " ++ compound_name))
          else
            .ok ⟨compound_name, smiles⟩

/-- fetch_data from ETL_PubChem.py.  The HTTP client is the oracle
parameter http, taking a URL to either a response or a raised
RequestException.  The second component of the result is the trace of
URLs actually requested, so that absence of network access is expressible.
Validation of the compound name (falsy or non-str raises ValueError
"Invalid compound name ...") happens before the request is issued. -/
def fetch_data (http : String → Except PyExn HttpResponse)
    (compound_name : PyVal) (base_url : String) :
    Except PyExn CompoundRecord × List String :=
  if !compound_name.truthy || !compound_name.isStr then
    (.error (.valueError ("Invalid compound name " ++ compound_name.pyStr)), [])
  else
    let name := compound_name.pyStr
    let url := request_url base_url name
    match http url with
    | .error e => (.error e, [url])
    | .ok response => (fetch_body name response, [url])

/-- Modelled from the spec: the RDKit library (not part of this
repository) as a deterministic oracle over an abstract molecule type.
mol_from_smiles is Chem.MolFromSmiles (None on parse failure); the four
descriptor functions are pure functions of the parsed molecule, per the
spec's determinism guarantee; their numeric values are modelled as exact
rationals and integers. -/
structure RDKitEnv (Mol : Type) where
  mol_from_smiles : String → Option Mol
  molWt : Mol → Rat
  molLogP : Mol → Rat
  numHDonors : Mol → Int
  numHAcceptors : Mol → Int

/-- The four-field descriptor dict returned by compute_descriptors. -/
structure DescriptorSet where
  MolWt : Rat
  LogP : Rat
  NumHDonors : Int
  NumHAcceptors : Int
deriving DecidableEq

/-- compute_descriptors from ETL_PubChem.py, over a given RDKit oracle.
The argument is a string (the pipeline passes the fetched SMILES string),
so of the guard `not smiles or not isinstance(smiles, str)` only the
falsy check, smiles = "", can fire; parse failure raises ValueError
"Failed to transform SMILES into molecules "; on success all four
descriptors are computed from the one parsed molecule. -/
def compute_descriptors {Mol : Type} (env : RDKitEnv Mol) (smiles : String) :
    Except PyExn DescriptorSet :=
  if smiles = "" then
    .error (.valueError ("Pass SMILEs " ++ smiles))
  else
    match env.mol_from_smiles smiles with
    | none => .error (.valueError "Failed to transform SMILES into molecules ")
    | some mol =>
      .ok ⟨env.molWt mol, env.molLogP mol, env.numHDonors mol,
        env.numHAcceptors mol⟩

/-- The document persisted by the pipeline: the fetch_data record merged
with the descriptors field. -/
structure PersistedDocument where
  name : String
  smiles : String
  descriptors : DescriptorSet
deriving DecidableEq

/-- Connection lifecycle events of the MongoDB client within one
save_to_mongo call. -/
inductive MongoEvent where
  | clientConstructed
  | clientClosed
deriving DecidableEq

/-- Modelled from the spec: the pymongo driver (not part of this
repository) as an oracle.  construct is the outcome of
MongoClient("mongodb://localhost:27017"); insert_one takes the database
name, the collection name and the document and yields the store-assigned
identifier or a raised driver exception. -/
structure MongoEnv where
  construct : Except PyExn Unit
  insert_one : String → String → PersistedDocument → Except PyExn String

/-- save_to_mongo from ETL_PubChem.py.  The whole body sits in a
try/except/finally: the MongoClient construction is itself inside the
try, so when construction raises, the finally clause evaluates
client.close() with the local variable client unbound, and the resulting
NameError (UnboundLocalError) replaces the in-flight exception; no
lifecycle event occurs on that path.  When construction succeeds, the
client is closed by the finally clause exactly once, on the success path
and on the insert-error path alike (the except clause only logs and
re-raises driver errors).  The second component is the trace of lifecycle
events. -/
def save_to_mongo (env : MongoEnv) (document : PersistedDocument)
    (db_name collection_name : String) :
    Except PyExn String × List MongoEvent :=
  match env.construct with
  | .error _ =>
    (.error (.nameError "local variable client referenced before assignment"),
      [])
  | .ok _ =>
    match env.insert_one db_name collection_name document with
    | .ok inserted_id =>
      (.ok inserted_id, [.clientConstructed, .clientClosed])
    | .error e =>
      (.error e, [.clientConstructed, .clientClosed])

/-- Outcome of one top-level run: either the document was saved and the
identifier printed, or an exception reached the try/except chain of the
main block and was logged under one of its categories. -/
inductive RunResult where
  | saved (doc : PersistedDocument) (mongo_id : String)
  | logged (category : String) (e : PyExn)
deriving DecidableEq

/-- The except chain of the main block: ValueError is logged as
"Validation error", requests.RequestException as "Network error",
PyMongoError as "MongoDB error", and any other exception as
"Unexpected error" (critical). -/
def log_category : PyExn → String
  | .valueError _ => "Validation error"
  | .requestException _ => "Network error"
  | .pyMongoError _ => "MongoDB error"
  | _ => "Unexpected error"

/-- The main block of ETL_PubChem.py as a function of the compound name
(the script hardcodes "aspirin"; see etl_main): fetch, then compute
descriptors on the fetched smiles, then save the merged document
\x7b**pubchem_data, "descriptors": descriptors\x7d with the default
database and collection names; the first exception aborts the remaining
stages and is logged by category. -/
def run_etl {Mol : Type} (http : String → Except PyExn HttpResponse)
    (env : RDKitEnv Mol) (menv : MongoEnv) (compound : String) : RunResult :=
  match (fetch_data http (.str compound) PUBCHEM_BASE_URL).1 with
  | .error e => .logged (log_category e) e
  | .ok pubchem_data =>
    match compute_descriptors env pubchem_data.smiles with
    | .error e => .logged (log_category e) e
    | .ok descriptors =>
      let doc : PersistedDocument :=
        ⟨pubchem_data.name, pubchem_data.smiles, descriptors⟩
      match (save_to_mongo menv doc "science_db" "compounds").1 with
      | .error e => .logged (log_category e) e
      | .ok mongo_id => .saved doc mongo_id

/-- The script's entry point: one run for the hardcoded compound
"aspirin". -/
def etl_main {Mol : Type} (http : String → Except PyExn HttpResponse)
    (env : RDKitEnv Mol) (menv : MongoEnv) : RunResult :=
  run_etl http env menv "aspirin"

/-- An HTTP oracle that returns the same response for every URL. -/
def constHttp (r : HttpResponse) : String → Except PyExn HttpResponse :=
  fun _ => .ok r

/-- A property entry carrying the aspirin connectivity SMILES under the
SMILES/Connectivity tag. -/
def aspirinSmilesProp : PCProp :=
  ⟨some ⟨some "SMILES", some "Connectivity"⟩, some "CC(=O)OC1=CC=CC=C1C(=O)O"⟩

/-- A well-formed service response for aspirin: one compound whose props
list carries the SMILES/Connectivity property. -/
def aspirinResp : HttpResponse := ⟨200, some [⟨some [aspirinSmilesProp]⟩]⟩

/-- A property entry matching the SMILES/Connectivity tag but carrying an
empty sval. -/
def emptySvalProp : PCProp :=
  ⟨some ⟨some "SMILES", some "Connectivity"⟩, some ""⟩

/-- A response whose first compound's first matching property carries an
empty sval; a second matching property carries a non-empty one. -/
def emptySvalResp : HttpResponse :=
  ⟨200, some [⟨some [emptySvalProp, aspirinSmilesProp]⟩]⟩

/-- A response whose first compound entry has no props key at all. -/
def noPropsResp : HttpResponse := ⟨200, some [⟨none⟩]⟩

/-- A response whose first compound entry has an empty props list, hence
no matching property. -/
def emptyPropsResp : HttpResponse := ⟨200, some [⟨some []⟩]⟩

/-- A response with an empty PC_Compounds list. -/
def notFoundResp : HttpResponse := ⟨200, some []⟩

/-- A response with HTTP status 404 and no body content. -/
def resp404 : HttpResponse := ⟨404, none⟩

/-- A concrete RDKit oracle whose parse always succeeds (molecule type
Unit) and whose descriptor functions are constant. -/
def unitRDKit : RDKitEnv Unit :=
  ⟨fun _ => some (), fun _ => 180, fun _ => 1, fun _ => 1, fun _ => 4⟩

/-- A concrete RDKit oracle whose parse always fails. -/
def failRDKit : RDKitEnv Unit :=
  ⟨fun _ => none, fun _ => 0, fun _ => 0, fun _ => 0, fun _ => 0⟩

/-- A MongoDB oracle on which construction and insertion succeed with a
fixed store-assigned identifier. -/
def goodMongo : MongoEnv :=
  ⟨.ok (), fun _ _ _ => .ok "68c0d2f1a9b3e4d5c6f70812"⟩

/-- A MongoDB oracle on which MongoClient construction itself raises. -/
def badMongo : MongoEnv :=
  ⟨.error (.pyMongoError "client configuration failed"),
    fun _ _ _ => .ok "68c0d2f1a9b3e4d5c6f70812"⟩

/-- A concrete document for exercising save_to_mongo. -/
def sampleDoc : PersistedDocument :=
  ⟨"aspirin", "CC(=O)OC1=CC=CC=C1C(=O)O", ⟨180, 1, 1, 4⟩⟩

/-- When no property of the list matches, the extraction loop finishes
with the smiles variable still None. -/
theorem findSmilesLoop_eq_of_none {l : List PCProp}
    (h : firstMatching l = none) : findSmilesLoop l = .ok none := by
  induction l with
  | nil => rfl
  | cons q t ih =>
    by_cases hq : propMatches q = true
    · rw [firstMatching, List.find?_cons_of_pos _ hq] at h
      cases h
    · have hq' : propMatches q = false := by simpa using hq
      rw [firstMatching, List.find?_cons_of_neg _ (by simpa using hq)] at h
      simp only [findSmilesLoop, hq', if_false, Bool.false_eq_true]
      exact ih h

/-- When the first matching property of the list carries sval s, the
extraction loop breaks there with smiles = s. -/
theorem findSmilesLoop_eq_of_first {l : List PCProp} {p : PCProp}
    {s : String} (h : firstMatching l = some p)
    (hs : p.value_sval = some s) : findSmilesLoop l = .ok (some s) := by
  induction l with
  | nil => exact absurd h (by simp [firstMatching])
  | cons q t ih =>
    by_cases hq : propMatches q = true
    · rw [firstMatching, List.find?_cons_of_pos _ hq] at h
      injection h with h
      subst h
      simp [findSmilesLoop, hq, hs]
    · have hq' : propMatches q = false := by simpa using hq
      rw [firstMatching, List.find?_cons_of_neg _ (by simpa using hq)] at h
      simp only [findSmilesLoop, hq', if_false, Bool.false_eq_true]
      exact ih h

/-- For a valid (non-empty string) compound name, fetch_data issues
exactly one request and its result is that of processing the returned
response. -/
theorem fetch_data_eq_body (http : String → Except PyExn HttpResponse)
    {name base_url : String} {resp : HttpResponse} (hname : name ≠ "")
    (hhttp : http (request_url base_url name) = .ok resp) :
    fetch_data http (.str name) base_url =
      (fetch_body name resp, [request_url base_url name]) := by
  simp [fetch_data, PyVal.truthy, PyVal.isStr, PyVal.pyStr, hname, hhttp]

/-- Any successful fetch_body result carries the queried name and a
non-empty smiles string. -/
theorem fetch_body_ok {name : String} {resp : HttpResponse}
    {r : CompoundRecord} (h : fetch_body name resp = .ok r) :
    r.name = name ∧ r.smiles ≠ "" := by
  unfold fetch_body at h
  split at h
  · simp at h
  · split at h
    · simp at h
    · simp at h
    · split at h
      · simp at h
      · split at h
        · simp at h
        · simp at h
        · split at h
          · simp at h
          · rename_i hsm
            injection h with h
            subst h
            exact ⟨rfl, hsm⟩

/-- Any successful fetch_data result carries the str-formatted queried
name and a non-empty smiles string. -/
theorem fetch_data_ok {http : String → Except PyExn HttpResponse}
    {v : PyVal} {base_url : String} {r : CompoundRecord}
    (h : (fetch_data http v base_url).1 = .ok r) :
    r.name = v.pyStr ∧ r.smiles ≠ "" := by
  rw [fetch_data] at h
  split at h
  · simp at h
  · dsimp only at h
    cases hr : http (request_url base_url v.pyStr) with
    | error e => rw [hr] at h; simp at h
    | ok resp =>
      rw [hr] at h
      dsimp only at h
      exact fetch_body_ok h

/-- Claim C7: for every compound name that is empty or not a text value,
fetch_data fails with the InvalidInput ValueError ("Invalid compound
name ...") and issues no network request (the request trace is empty). -/
theorem fetch_data_invalid_input (http : String → Except PyExn HttpResponse)
    (base_url : String) (v : PyVal)
    (hv : v.truthy = false ∨ v.isStr = false) :
    fetch_data http v base_url =
      (.error (.valueError ("Invalid compound name " ++ v.pyStr)), []) := by
  rcases hv with hv | hv <;> simp [fetch_data, hv]

/-- Witness for fetch_data_invalid_input at the concrete non-text input
None: the InvalidInput ValueError is returned and no URL is requested. -/
theorem fetch_data_invalid_input_witness :
    fetch_data (constHttp aspirinResp) PyVal.pyNone PUBCHEM_BASE_URL =
      (.error (.valueError ("Invalid compound name " ++ PyVal.pyNone.pyStr)),
        []) :=
  fetch_data_invalid_input (constHttp aspirinResp) PUBCHEM_BASE_URL
    PyVal.pyNone (Or.inl rfl)

/-- Claim C9: for every successful (status 200) response whose
PC_Compounds list is absent or empty, fetch_data fails with the NotFound
ValueError ("No compound data found for: ..."). -/
theorem fetch_data_not_found (http : String → Except PyExn HttpResponse)
    (name : String) (resp : HttpResponse) (hname : name ≠ "")
    (hhttp : http (request_url PUBCHEM_BASE_URL name) = .ok resp)
    (hstatus : resp.status_code = 200)
    (hpc : resp.pc_compounds = none ∨ resp.pc_compounds = some []) :
    (fetch_data http (.str name) PUBCHEM_BASE_URL).1 =
      .error (.valueError ("No compound data found for: " ++ name)) := by
  rw [fetch_data_eq_body http hname hhttp]
  rcases hpc with hpc | hpc <;> simp [fetch_body, hstatus, hpc]

/-- Witness for fetch_data_not_found at a concrete empty-list response. -/
theorem fetch_data_not_found_witness :
    (fetch_data (constHttp notFoundResp) (.str "aspirin")
        PUBCHEM_BASE_URL).1 =
      .error (.valueError ("No compound data found for: " ++ "aspirin")) :=
  fetch_data_not_found (constHttp notFoundResp) "aspirin" notFoundResp
    (by decide) rfl rfl (Or.inr rfl)

/-- Claim C4, counterexample to the parenthetical: on a successful
response whose first compound entry has no props list at all, fetch_data
fails with a TypeError (iterating None), which is not a ValueError and
hence not the MissingField failure. -/
theorem fetch_data_no_props_type_error :
    (fetch_data (constHttp noPropsResp) (.str "aspirin")
        PUBCHEM_BASE_URL).1 =
      .error (.typeError "NoneType object is not iterable") ∧
    (PyExn.typeError "NoneType object is not iterable").kind ≠
      "ValueError" :=
  ⟨rfl, by decide⟩

/-- Claim C4 (amended): for every successful response whose first
compound entry has a props list containing no property matching both urn
label "SMILES" and urn name "Connectivity", fetch_data fails with the
MissingField ValueError ("No SMILES found for: ..."); an entry with no
props list at all instead raises a TypeError
(fetch_data_no_props_type_error). -/
theorem fetch_data_missing_field (http : String → Except PyExn HttpResponse)
    (name : String) (resp : HttpResponse) (props : List PCProp)
    (rest : List PCCompound) (hname : name ≠ "")
    (hhttp : http (request_url PUBCHEM_BASE_URL name) = .ok resp)
    (hstatus : resp.status_code = 200)
    (hpc : resp.pc_compounds = some (⟨some props⟩ :: rest))
    (hnone : firstMatching props = none) :
    (fetch_data http (.str name) PUBCHEM_BASE_URL).1 =
      .error (.valueError ("No SMILES found for: " ++ name)) := by
  rw [fetch_data_eq_body http hname hhttp]
  simp [fetch_body, hstatus, hpc, findSmilesLoop_eq_of_none hnone]

/-- Witness for fetch_data_missing_field at a concrete response whose
first compound has an empty props list. -/
theorem fetch_data_missing_field_witness :
    (fetch_data (constHttp emptyPropsResp) (.str "aspirin")
        PUBCHEM_BASE_URL).1 =
      .error (.valueError ("No SMILES found for: " ++ "aspirin")) :=
  fetch_data_missing_field (constHttp emptyPropsResp) "aspirin"
    emptyPropsResp [] [] (by decide) rfl rfl rfl rfl

/-- Claim C1, counterexample: on a successful response whose first
compound entry does contain a property tagged SMILES/Connectivity — the
first such property carrying the empty sval — fetch_data raises the
ValueError "No SMILES found" instead of returning a record with that
sval. -/
theorem fetch_data_empty_sval_fails :
    propMatches emptySvalProp = true ∧
    emptySvalProp.value_sval = some "" ∧
    (fetch_data (constHttp emptySvalResp) (.str "aspirin")
        PUBCHEM_BASE_URL).1 =
      .error (.valueError ("No SMILES found for: " ++ "aspirin")) :=
  ⟨by decide, rfl, rfl⟩

/-- Claim C1 (amended): for every successful response whose compound list
is non-empty and whose first compound entry contains a matching
SMILES/Connectivity property, if the first such matching property carries
a present, non-empty sval then fetch_data returns the record with the
queried name and exactly that sval; later compound entries and later
matching properties are ignored (the conclusion depends only on the first
compound and the first match). -/
theorem fetch_data_first_smiles (http : String → Except PyExn HttpResponse)
    (name : String) (resp : HttpResponse) (props : List PCProp)
    (rest : List PCCompound) (p : PCProp) (s : String) (hname : name ≠ "")
    (hhttp : http (request_url PUBCHEM_BASE_URL name) = .ok resp)
    (hstatus : resp.status_code = 200)
    (hpc : resp.pc_compounds = some (⟨some props⟩ :: rest))
    (hfind : firstMatching props = some p)
    (hsval : p.value_sval = some s) (hs : s ≠ "") :
    (fetch_data http (.str name) PUBCHEM_BASE_URL).1 = .ok ⟨name, s⟩ := by
  rw [fetch_data_eq_body http hname hhttp]
  simp [fetch_body, hstatus, hpc, findSmilesLoop_eq_of_first hfind hsval, hs]

/-- Witness for fetch_data_first_smiles at the concrete aspirin
response. -/
theorem fetch_data_first_smiles_witness :
    (fetch_data (constHttp aspirinResp) (.str "aspirin")
        PUBCHEM_BASE_URL).1 =
      .ok ⟨"aspirin", "CC(=O)OC1=CC=CC=C1C(=O)O"⟩ :=
  fetch_data_first_smiles (constHttp aspirinResp) "aspirin" aspirinResp
    [aspirinSmilesProp] [] aspirinSmilesProp "CC(=O)OC1=CC=CC=C1C(=O)O"
    (by decide) rfl rfl rfl (by decide) rfl (by decide)

/-- Claim C10: whenever fetch_data succeeds, the smiles field of the
returned record is non-empty; and when the first matching
SMILES/Connectivity property of the first compound carries the empty
sval, fetch_data fails with the ValueError "No SMILES found" instead of
returning (it does not fall through to later matching properties). -/
theorem fetch_data_smiles_nonempty (http : String → Except PyExn HttpResponse)
    (base_url : String) (v : PyVal) :
    (∀ r : CompoundRecord,
      (fetch_data http v base_url).1 = .ok r → r.smiles ≠ "") ∧
    (∀ (name : String) (resp : HttpResponse) (props : List PCProp)
      (rest : List PCCompound) (p : PCProp), v = .str name → name ≠ "" →
      http (request_url base_url name) = .ok resp →
      resp.status_code = 200 →
      resp.pc_compounds = some (⟨some props⟩ :: rest) →
      firstMatching props = some p → p.value_sval = some "" →
      (fetch_data http v base_url).1 =
        .error (.valueError ("No SMILES found for: " ++ name))) := by
  constructor
  · intro r h
    exact (fetch_data_ok h).2
  · intro name resp props rest p hv hname hhttp hstatus hpc hfind hsval
    subst hv
    rw [fetch_data_eq_body http hname hhttp]
    simp [fetch_body, hstatus, hpc, findSmilesLoop_eq_of_first hfind hsval]

/-- Witness for fetch_data_smiles_nonempty: the record fetched from the
concrete aspirin response has a non-empty smiles, and on the concrete
response whose first matching property carries the empty sval (with a
later non-empty match present) fetch_data fails. -/
theorem fetch_data_smiles_nonempty_witness :
    (⟨"aspirin", "CC(=O)OC1=CC=CC=C1C(=O)O"⟩ : CompoundRecord).smiles ≠
      "" ∧
    (fetch_data (constHttp emptySvalResp) (.str "aspirin")
        PUBCHEM_BASE_URL).1 =
      .error (.valueError ("No SMILES found for: " ++ "aspirin")) :=
  ⟨(fetch_data_smiles_nonempty (constHttp aspirinResp) PUBCHEM_BASE_URL
      (.str "aspirin")).1 ⟨"aspirin", "CC(=O)OC1=CC=CC=C1C(=O)O"⟩ rfl,
    (fetch_data_smiles_nonempty (constHttp emptySvalResp) PUBCHEM_BASE_URL
      (.str "aspirin")).2 "aspirin" emptySvalResp
      [emptySvalProp, aspirinSmilesProp] [] emptySvalProp rfl (by decide)
      rfl rfl rfl (by decide) rfl⟩

/-- Claim C3, counterexample: on a concrete 404 response the fetch_data
failure is a ValueError "Failed: 404" — the same exception class
(ValueError) as the InvalidInput failure — and the top-level runner logs
it under "Validation error", not under the network category. -/
theorem fetch_data_remote_error_not_distinct :
    (fetch_data (constHttp resp404) (.str "aspirin")
        PUBCHEM_BASE_URL).1 =
      .error (.valueError ("Failed: " ++ toString (404 : Nat))) ∧
    (fetch_data (constHttp resp404) (.str "") PUBCHEM_BASE_URL).1 =
      .error (.valueError ("Invalid compound name " ++ "")) ∧
    (PyExn.valueError ("Failed: " ++ toString (404 : Nat))).kind =
      (PyExn.valueError ("Invalid compound name " ++ "")).kind ∧
    run_etl (constHttp resp404) unitRDKit goodMongo "aspirin" =
      .logged "Validation error"
        (.valueError ("Failed: " ++ toString (404 : Nat))) ∧
    "Validation error" ≠ "Network error" :=
  ⟨rfl, rfl, rfl, rfl, by decide⟩

/-- Claim C3 (amended): when the HTTP status is not success, fetch_data
fails with a ValueError whose message is "Failed: " followed by the
status — the same exception class as the InvalidInput, NotFound and
MissingField failures, distinguishable only by message — and the
top-level runner logs that failure under the validation category
"Validation error", not as a remote or network failure. -/
theorem fetch_data_bad_status_logged_validation {Mol : Type}
    (env : RDKitEnv Mol) (menv : MongoEnv)
    (http : String → Except PyExn HttpResponse) (name : String)
    (resp : HttpResponse) (hname : name ≠ "")
    (hhttp : http (request_url PUBCHEM_BASE_URL name) = .ok resp)
    (hstatus : resp.status_code ≠ 200) :
    (fetch_data http (.str name) PUBCHEM_BASE_URL).1 =
      .error (.valueError ("Failed: " ++ toString resp.status_code)) ∧
    run_etl http env menv name =
      .logged "Validation error"
        (.valueError ("Failed: " ++ toString resp.status_code)) := by
  have hf : (fetch_data http (.str name) PUBCHEM_BASE_URL).1 =
      .error (.valueError ("Failed: " ++ toString resp.status_code)) := by
    rw [fetch_data_eq_body http hname hhttp]
    simp [fetch_body, hstatus]
  refine ⟨hf, ?_⟩
  rw [run_etl, hf]
  rfl

/-- Witness for fetch_data_bad_status_logged_validation at the concrete
404 response. -/
theorem fetch_data_bad_status_logged_validation_witness :
    (fetch_data (constHttp resp404) (.str "aspirin")
        PUBCHEM_BASE_URL).1 =
      .error (.valueError ("Failed: " ++ toString resp404.status_code)) ∧
    run_etl (constHttp resp404) unitRDKit goodMongo "aspirin" =
      .logged "Validation error"
        (.valueError ("Failed: " ++ toString resp404.status_code)) :=
  fetch_data_bad_status_logged_validation unitRDKit goodMongo
    (constHttp resp404) "aspirin" resp404 (by decide) rfl (by decide)

/-- Claim C5: for every non-empty structural string that the parser
rejects, compute_descriptors fails with the ParseError ValueError
("Failed to transform SMILES into molecules ") and produces no descriptor
values; and every successful result consists of all four descriptor
fields computed together from the one parsed molecule, never a partial
subset.  (The empty string is rejected earlier, as InvalidInput, before
the parser runs.) -/
theorem compute_descriptors_parse_error_atomic {Mol : Type}
    (env : RDKitEnv Mol) (smiles : String) :
    (smiles ≠ "" → env.mol_from_smiles smiles = none →
      compute_descriptors env smiles =
        .error (.valueError "Failed to transform SMILES into molecules ")) ∧
    (∀ d : DescriptorSet, compute_descriptors env smiles = .ok d →
      ∃ mol, env.mol_from_smiles smiles = some mol ∧
        d = ⟨env.molWt mol, env.molLogP mol, env.numHDonors mol,
          env.numHAcceptors mol⟩) := by
  constructor
  · intro hs hm
    simp [compute_descriptors, hs, hm]
  · intro d h
    rw [compute_descriptors] at h
    split at h
    · simp at h
    · split at h
      · simp at h
      · rename_i mol hm
        injection h with h
        exact ⟨mol, hm, h.symm⟩

/-- Witness for compute_descriptors_parse_error_atomic: a concrete
rejected string yields the ParseError, and a concrete accepted string
yields the full four-field set. -/
theorem compute_descriptors_parse_error_atomic_witness :
    compute_descriptors failRDKit "xyz" =
      .error (.valueError "Failed to transform SMILES into molecules ") ∧
    ∃ mol, unitRDKit.mol_from_smiles "C" = some mol ∧
      (⟨180, 1, 1, 4⟩ : DescriptorSet) =
        ⟨unitRDKit.molWt mol, unitRDKit.molLogP mol,
          unitRDKit.numHDonors mol, unitRDKit.numHAcceptors mol⟩ :=
  ⟨(compute_descriptors_parse_error_atomic failRDKit "xyz").1 (by decide)
      rfl,
    (compute_descriptors_parse_error_atomic unitRDKit "C").2
      ⟨180, 1, 1, 4⟩ rfl⟩

/-- Claim C6: compute_descriptors is deterministic — two calls with the
same structural string against the same RDKit oracle (a pure function,
per the spec's determinism guarantee for the library) return
DescriptorSets whose four fields are pairwise identical. -/
theorem compute_descriptors_deterministic {Mol : Type}
    (env : RDKitEnv Mol) (s1 s2 : String) (d1 d2 : DescriptorSet)
    (hs : s1 = s2) (h1 : compute_descriptors env s1 = .ok d1)
    (h2 : compute_descriptors env s2 = .ok d2) :
    d1.MolWt = d2.MolWt ∧ d1.LogP = d2.LogP ∧
    d1.NumHDonors = d2.NumHDonors ∧
    d1.NumHAcceptors = d2.NumHAcceptors := by
  subst hs
  rw [h1] at h2
  injection h2 with h2
  subst h2
  exact ⟨rfl, rfl, rfl, rfl⟩

/-- Witness for compute_descriptors_deterministic: two concrete calls on
the same string against the same oracle. -/
theorem compute_descriptors_deterministic_witness :
    (⟨180, 1, 1, 4⟩ : DescriptorSet).MolWt =
      (⟨180, 1, 1, 4⟩ : DescriptorSet).MolWt ∧
    (⟨180, 1, 1, 4⟩ : DescriptorSet).LogP =
      (⟨180, 1, 1, 4⟩ : DescriptorSet).LogP ∧
    (⟨180, 1, 1, 4⟩ : DescriptorSet).NumHDonors =
      (⟨180, 1, 1, 4⟩ : DescriptorSet).NumHDonors ∧
    (⟨180, 1, 1, 4⟩ : DescriptorSet).NumHAcceptors =
      (⟨180, 1, 1, 4⟩ : DescriptorSet).NumHAcceptors :=
  compute_descriptors_deterministic unitRDKit "C" "C" ⟨180, 1, 1, 4⟩
    ⟨180, 1, 1, 4⟩ rfl rfl rfl

/-- Claim C2, evaluation at the failing input: when MongoClient
construction itself raises, the finally clause evaluates client.close()
with the local variable client unbound, so save_to_mongo ends with a
freshly introduced NameError (masking the original driver error) and no
lifecycle event — the release step both fails to run and introduces a new
error.  On an oracle where construction succeeds, the client is closed
exactly once, on the success path and on the insert-error path alike. -/
theorem save_to_mongo_construct_failure :
    save_to_mongo badMongo sampleDoc "science_db" "compounds" =
      (.error
        (.nameError "local variable client referenced before assignment"),
        []) ∧
    (save_to_mongo goodMongo sampleDoc "science_db" "compounds").2 =
      [.clientConstructed, .clientClosed] ∧
    (save_to_mongo
        (⟨.ok (), fun _ _ _ => .error (.pyMongoError "duplicate key")⟩ :
          MongoEnv) sampleDoc "science_db" "compounds") =
      (.error (.pyMongoError "duplicate key"),
        [.clientConstructed, .clientClosed]) :=
  ⟨rfl, rfl, rfl⟩

/-- Claim C8: whenever fetch, descriptor computation and the store insert
all succeed, the document handed to the persister is exactly the record
with the original queried name, the fetched smiles and the computed
four-field descriptor set, and the run returns the store-assigned
identifier, which is non-empty whenever the store assigns a non-empty
one. -/
theorem run_etl_success {Mol : Type}
    (http : String → Except PyExn HttpResponse) (env : RDKitEnv Mol)
    (menv : MongoEnv) (name : String) (rec : CompoundRecord)
    (d : DescriptorSet) (mongo_id : String)
    (hf : (fetch_data http (.str name) PUBCHEM_BASE_URL).1 = .ok rec)
    (hc : compute_descriptors env rec.smiles = .ok d)
    (hcon : menv.construct = .ok ())
    (hins : menv.insert_one "science_db" "compounds"
      ⟨rec.name, rec.smiles, d⟩ = .ok mongo_id)
    (hid : mongo_id ≠ "") :
    run_etl http env menv name = .saved ⟨name, rec.smiles, d⟩ mongo_id ∧
    mongo_id ≠ "" := by
  have hname : rec.name = name := by
    have := (fetch_data_ok hf).1
    simpa [PyVal.pyStr] using this
  refine ⟨?_, hid⟩
  rw [run_etl, hf]
  dsimp only
  rw [hc]
  dsimp only
  rw [show (save_to_mongo menv ⟨rec.name, rec.smiles, d⟩ "science_db"
      "compounds").1 = .ok mongo_id by
    rw [save_to_mongo, hcon]
    dsimp only
    rw [hins]]
  rw [hname]

/-- Witness for run_etl_success: a fully concrete run through the aspirin
response, the constant RDKit oracle and the good store oracle. -/
theorem run_etl_success_witness :
    run_etl (constHttp aspirinResp) unitRDKit goodMongo "aspirin" =
      .saved ⟨"aspirin", "CC(=O)OC1=CC=CC=C1C(=O)O", ⟨180, 1, 1, 4⟩⟩
        "68c0d2f1a9b3e4d5c6f70812" ∧
    "68c0d2f1a9b3e4d5c6f70812" ≠ "" :=
  run_etl_success (constHttp aspirinResp) unitRDKit goodMongo "aspirin"
    ⟨"aspirin", "CC(=O)OC1=CC=CC=C1C(=O)O"⟩ ⟨180, 1, 1, 4⟩
    "68c0d2f1a9b3e4d5c6f70812" rfl rfl rfl rfl (by decide)
